import Mathlib

/-!
Shallow embedding of the Polytopia-Chess server's rule engine, for checking
the natural-language specification against the code.

Embedded sources:
* `src/server/gamemodes/chess.py` — the `Chess` gamemode (board queries,
  per-piece validators, hypothetical-check oracle, move generation,
  `game_is_over`, `freeze_game`);
* `src/server/models.py` — `Side`, `PieceType`, `Winner`, `Conclusion`,
  `Piece`, `Game`, `GameState`, `TurnCounter.__iadd__`;
* `src/server/timing.py` — `Timer.turn_end`;
* `src/server/events/games.py` — the `move`, `claim_draw` and `resign`
  handlers and `end_game`.

Python runtime failures (AttributeError, TypeError, ValueError,
ZeroDivisionError, RuntimeError, peewee.DoesNotExist, and the project's
`RequestError`) are modelled with an explicit error type `PyErr`; fallible
functions return `Except PyErr _`.  Python generators are modelled as the
list of values yielded before the generator either finishes or raises,
paired with the error if one was raised.

Two symbols are called by the code under `src/` but defined nowhere in it
(`Chess.get_allowed_castling`, referenced at chess.py:393, and
`GameMode.make_move`, referenced at events/games.py:111); those two are
modelled from the spec and carry a `Modelled from the spec:` doc comment,
as are the predicates used only to *state* claims ("the king is attacked
after the move is applied").  Everything else is translated from the source.
-/

namespace Kasupel

/-- Python runtime errors that the embedded code can raise. -/
inductive PyErr where
  /-- `AttributeError` (e.g. an attribute missing from an object, or an
  attribute access on `None`). -/
  | attributeError
  /-- `TypeError` (e.g. `int(None)`, or a value of the wrong type handed to
  a peewee field). -/
  | typeError
  /-- `ValueError` (raised by `TurnCounter.__iadd__`). -/
  | valueError
  /-- `RuntimeError` (the recursion guard in `Chess.hypothetical_check`). -/
  | runtimeError
  /-- `ZeroDivisionError` (integer `//` by zero). -/
  | zeroDivisionError
  /-- `peewee.DoesNotExist` escaping from an uncaught `Model.get`. -/
  | doesNotExist
  /-- The project's `helpers.RequestError(code)`. -/
  | requestError (code : Nat)
deriving DecidableEq, Repr

/-- `models.Side`: an enum for home/away. -/
inductive Side where
  | HOME
  | AWAY
deriving DecidableEq, Repr

/-- `Side.__invert__`: get the other side. -/
def Side.invert : Side → Side
  | .HOME => .AWAY
  | .AWAY => .HOME

/-- `Side.forwards`: the direction that is forwards for this side. -/
def Side.forwards : Side → Int
  | .HOME => 1
  | .AWAY => -1

/-- `models.PieceType`: an enum for a chess piece type. -/
inductive PieceType where
  | PAWN
  | ROOK
  | KNIGHT
  | BISHOP
  | QUEEN
  | KING
deriving DecidableEq, Repr

/-- `models.Winner`: an enum for the winner of a game. -/
inductive Winner where
  | GAME_NOT_COMPLETE
  | HOME
  | AWAY
  | DRAW
deriving DecidableEq, Repr

/-- `models.Conclusion`: an enum for the way a game finished. -/
inductive Conclusion where
  | GAME_NOT_COMPLETE
  | CHECKMATE
  | RESIGN
  | TIME
  | STALEMATE
  | THREEFOLD_REPETITION
  | FIFTY_MOVE_RULE
  | AGREED_DRAW
deriving DecidableEq, Repr

/-- `models.Piece`: a piece in a game.  `id` is the database row id
(`freeze_game` stores rook ids in its `castleable_rooks` list). -/
structure Piece where
  id : Nat
  pieceType : PieceType
  rank : Int
  file : Int
  side : Side
  hasMoved : Bool
  firstMoveLastTurn : Bool
deriving DecidableEq, Repr

/-- The pieces of one game, in database (insertion) order. -/
abbrev Board := List Piece

/-- The result of running a Python generator to exhaustion: the values it
yielded, and the exception that ended it early, if any. -/
abbrev Gen (α : Type) := List α × Option PyErr

namespace Chess

/-- `Chess.get_piece` (chess.py:47): the piece on a square, or `None`.
`peewee.Model.get` returns the first matching row. -/
def get_piece (b : Board) (rank file : Int) : Option Piece :=
  b.find? fun p => p.file == file && p.rank == rank

/-- `Chess.on_board` (chess.py:79): rank and file both in `[0, 7]`. -/
def on_board (rank file : Int) : Bool :=
  rank ≥ 0 && rank ≤ 7 && file ≥ 0 && file ≤ 7

/-- `Chess.path_is_empty` (chess.py:57).  `steps == 0` makes the `//`
raise `ZeroDivisionError`; an empty destination square makes
`victim.side` (line 77) raise `AttributeError`.  Python `//` is floor
division, hence `Int.fdiv`. -/
def path_is_empty (b : Board) (piece : Piece) (rank file : Int) :
    Except PyErr Bool :=
  let file_delta := file - piece.file
  let rank_delta := rank - piece.rank
  let steps : Nat := max file_delta.natAbs rank_delta.natAbs
  if steps = 0 then .error .zeroDivisionError
  else
    let file_step := Int.fdiv file_delta steps
    let rank_step := Int.fdiv rank_delta steps
    if (List.range' 1 (steps - 1)).any (fun step =>
        (get_piece b (piece.rank + step * rank_step)
          (piece.file + step * file_step)).isSome) then
      .ok false
    else
      match get_piece b rank file with
      | none => .error .attributeError
      | some victim => .ok (victim.side != piece.side)

/-- `Chess.validate_pawn_move` (chess.py:134).  Note line 162: the
double-step checks `get_piece(rank, file - pawn.side.forwards)`, i.e. it
offsets the *file*, not the rank. -/
def validate_pawn_move (b : Board) (pawn : Piece) (rank file : Int) : Bool :=
  let absolute_file_delta := (file - pawn.file).natAbs
  let relative_rank_delta := pawn.side.forwards * (rank - pawn.rank)
  if relative_rank_delta = 0 then false
  else if relative_rank_delta = 1 then
    if absolute_file_delta = 0 then (get_piece b rank file).isNone
    else if absolute_file_delta = 1 then
      let victim := get_piece b rank file
      let en_passant_pawn := get_piece b pawn.rank file
      let en_passant_valid :=
        en_passant_pawn.any fun epp =>
          epp.side != pawn.side && epp.firstMoveLastTurn &&
          pawn.rank == (if pawn.side == Side.HOME then 4 else 3)
      (victim.any fun v => v.side != pawn.side) || en_passant_valid
    else false
  else if relative_rank_delta = 2 then
    if absolute_file_delta ≠ 0 then false
    else if pawn.hasMoved then false
    else
      ((get_piece b rank file).isNone &&
        (get_piece b rank (file - pawn.side.forwards)).isNone)
  else false

/-- `Chess.validate_rook_move` (chess.py:178).  Line 182 computes
`rank_delta = rank - rook.file` (the file, not the rank). -/
def validate_rook_move (b : Board) (rook : Piece) (rank file : Int) :
    Except PyErr Bool :=
  let file_delta := file - rook.file
  let rank_delta := rank - rook.file
  if file_delta ≠ 0 ∧ rank_delta ≠ 0 then .ok false
  else path_is_empty b rook rank file

/-- `Chess.validate_knight_move` (chess.py:193). -/
def validate_knight_move (b : Board) (knight : Piece) (rank file : Int) :
    Bool :=
  let absolute_file_delta := (file - knight.file).natAbs
  let absolute_rank_delta := (rank - knight.rank).natAbs
  if ¬((absolute_file_delta = 1 ∧ absolute_rank_delta = 2) ∨
      (absolute_file_delta = 2 ∧ absolute_rank_delta = 1)) then false
  else
    match get_piece b rank file with
    | none => true
    | some victim => victim.side != knight.side

/-- `Chess.validate_bishop_move` (chess.py:216). -/
def validate_bishop_move (b : Board) (bishop : Piece) (rank file : Int) :
    Except PyErr Bool :=
  let absolute_file_delta := (file - bishop.file).natAbs
  let absolute_rank_delta := (rank - bishop.rank).natAbs
  if absolute_file_delta ≠ absolute_rank_delta then .ok false
  else path_is_empty b bishop rank file

/-- `Chess.validate_queen_move` (chess.py:232). -/
def validate_queen_move (b : Board) (queen : Piece) (rank file : Int) :
    Except PyErr Bool :=
  let absolute_file_delta := (file - queen.file).natAbs
  let absolute_rank_delta := (rank - queen.rank).natAbs
  let bishops_move := absolute_file_delta = absolute_rank_delta
  let rooks_move := Xor' (absolute_file_delta ≠ 0) (absolute_rank_delta ≠ 0)
  if ¬(bishops_move ∨ rooks_move) then .ok false
  else path_is_empty b queen rank file

/-- A hypothetical move as passed to `Chess.hypothetical_check`: a piece
together with a destination rank and file.  The oracle stores these in
`self.hypothetical_moves` (chess.py:112) but — per its own
`FIXME: Observe hypothetical moves in get_piece` (line 113) — `get_piece`
never reads them, so the argument has no effect on the result. -/
abbrev HypoMove := Piece × Int × Int

/-- The king-move validator, parameterized by the check oracle used in the
castling branch (`Chess.validate_king_move`, chess.py:254).  When a rank
delta of zero meets an unmoved king, the castling block runs and every one
of its paths returns, so an unmoved king can never make a plain sideways
move.  Line 273-275 returns `False` when one of `empty_files` is *empty*,
i.e. castling requires the squares between king and rook to be occupied. -/
def validate_king_move_core (b : Board) (king : Piece) (rank file : Int)
    (hc : Piece → Int → Except PyErr Bool) : Except PyErr Bool :=
  let absolute_file_delta := (file - king.file).natAbs
  let absolute_rank_delta := (rank - king.rank).natAbs
  if absolute_rank_delta = 0 ∧ king.hasMoved = false then
    let cfg : Option (Int × Int × List Int) :=
      if file = 2 then some (0, 3, [1, 2, 3])
      else if file = 6 then some (7, 5, [5, 6])
      else none
    match cfg with
    | none => .ok false
    | some (rook_start, rook_end, empty_files) =>
      match get_piece b rank rook_start with
      | none => .ok false
      | some rook =>
        if rook.hasMoved then .ok false
        else if empty_files.any (fun f => (get_piece b rank f).isNone) then
          .ok false
        else do
          let check ← hc rook rook_end
          pure (!check)
  else if absolute_file_delta > 1 ∨ absolute_rank_delta > 1 then .ok false
  else .ok true

/-- `Chess.validate_move` with `check_allowed=True`, as invoked from inside
`Chess.hypothetical_check` (chess.py:124): here a nested
`hypothetical_check` (reachable only through the castling branch of
`validate_king_move`) finds `self.hypothetical_moves` already set and
raises `RuntimeError` (chess.py:110-111). -/
def validate_move_h (b : Board)
    (start_rank start_file end_rank end_file : Int) : Except PyErr Bool :=
  if start_file = end_file ∧ start_rank = end_rank then .ok false
  else
    match get_piece b start_rank start_file with
    | none => .ok false
    | some piece =>
      if ¬ on_board end_rank end_file then .ok false
      else
        match piece.pieceType with
        | .PAWN => .ok (validate_pawn_move b piece end_rank end_file)
        | .ROOK => validate_rook_move b piece end_rank end_file
        | .KNIGHT => .ok (validate_knight_move b piece end_rank end_file)
        | .BISHOP => validate_bishop_move b piece end_rank end_file
        | .QUEEN => validate_queen_move b piece end_rank end_file
        | .KING =>
          validate_king_move_core b piece end_rank end_file
            (fun _ _ => .error .runtimeError)

/-- The enemy loop of `Chess.hypothetical_check` (chess.py:123-128): stop
at the first enemy whose move validates. -/
def hypothetical_check_loop (b : Board) (king : Piece) :
    List Piece → Except PyErr Bool
  | [] => .ok false
  | enemy :: rest => do
    let check ← validate_move_h b enemy.file enemy.rank king.file king.rank
    if check then pure true else hypothetical_check_loop b king rest

/-- `Chess.hypothetical_check` (chess.py:104): check if a series of moves
would put a side in check.  The `moves` argument is stored and never
observed (the `FIXME` at line 113), so the attack test runs on the
*current* board.  Note line 125 passes `(enemy.file, enemy.rank,
king.file, king.rank)` into `validate_move`, whose parameters are
`(start_rank, start_file, end_rank, end_file)` — rank and file swapped. -/
def hypothetical_check (b : Board) (side : Side) (_moves : List HypoMove) :
    Except PyErr Bool :=
  match b.find? (fun p => p.side == side && p.pieceType == PieceType.KING) with
  | none => .error .doesNotExist
  | some king =>
    hypothetical_check_loop b king
      (b.filter fun p => p.side == side.invert)

/-- `Chess.validate_king_move` (chess.py:254), with the real oracle in the
castling branch (line 276-278). -/
def validate_king_move (b : Board) (king : Piece) (rank file : Int) :
    Except PyErr Bool :=
  validate_king_move_core b king rank file
    (fun rook rook_end =>
      hypothetical_check b king.side
        [(king, rank, file), (rook, rank, rook_end)])

/-- `Chess.get_moves_in_direction` (chess.py:86).  The loop body evaluates
`piece.Side` (capital S, line 98) as an argument to `hypothetical_check`;
`models.Piece` has no attribute `Side`, so any step onto an empty or
enemy-occupied square raises `AttributeError`.  A friendly piece or the
board edge short-circuits the condition and breaks first, so the loop
never yields and never reaches a second iteration. -/
def get_moves_in_direction (b : Board) (piece : Piece)
    (rank_direction file_direction : Int) : Gen (Int × Int) :=
  let rank := piece.rank + rank_direction
  let file := piece.file + file_direction
  if ¬ on_board rank file then ([], none)
  else
    match get_piece b rank file with
    | some target =>
      if target.side == piece.side then ([], none)
      else ([], some .attributeError)
    | none => ([], some .attributeError)

/-- Concatenate generator runs, stopping at the first raised exception. -/
def genConcat : List (Gen α) → Gen α
  | [] => ([], none)
  | (ys, some e) :: _ => (ys, some e)
  | (ys, none) :: rest =>
    let (zs, e) := genConcat rest
    (ys ++ zs, e)

/-- The option loop of `Chess.get_pawn_moves` (chess.py:167-176).  Line
175 yields a move only when `hypothetical_check` returns *true* — the
filter is inverted relative to every other generator. -/
def get_pawn_moves_loop (b : Board) (pawn : Piece) :
    List (Int × Int) → Gen (Int × Int)
  | [] => ([], none)
  | (absolute_rank_delta, file_delta) :: rest =>
    let rank := pawn.rank + absolute_rank_delta * pawn.side.forwards
    let file := pawn.file + file_delta
    if on_board rank file ∧ validate_pawn_move b pawn rank file then
      match hypothetical_check b pawn.side [(pawn, rank, file)] with
      | .error e => ([], some e)
      | .ok check =>
        let (tail, e) := get_pawn_moves_loop b pawn rest
        if check then ((rank, file) :: tail, e) else (tail, e)
    else get_pawn_moves_loop b pawn rest

/-- `Chess.get_pawn_moves` (chess.py:167). -/
def get_pawn_moves (b : Board) (pawn : Piece) : Gen (Int × Int) :=
  get_pawn_moves_loop b pawn [(1, 0), (2, 0), (1, -1), (1, 1)]

/-- `Chess.get_rook_moves` (chess.py:187). -/
def get_rook_moves (b : Board) (rook : Piece) : Gen (Int × Int) :=
  genConcat ([(-1, 0), (1, 0), (0, -1), (0, 1)].map fun d =>
    get_moves_in_direction b rook d.1 d.2)

/-- The candidate loop of `Chess.get_knight_moves` (chess.py:203-214).
Line 213 calls `self.hypothetical_check(knight, rank, file)`: the knight
*piece* is passed as the `side` argument, so executing the
`models.Piece.get(models.Piece.side == side, ...)` query inside
`hypothetical_check` hands the piece to `EnumField.db_value`
(models.py:170), which raises `TypeError`.  No move is ever yielded. -/
def get_knight_moves_loop (b : Board) (knight : Piece) :
    List (Int × Int × Int × Int) → Gen (Int × Int)
  | [] => ([], none)
  | (rank_absolute, file_absolute, rank_direction, file_direction) :: rest =>
    let rank := knight.rank + rank_absolute * rank_direction
    let file := knight.file + file_absolute * file_direction
    let victim := get_piece b rank file
    if victim.isNone ∨ victim.any (fun v => v.side != knight.side) then
      ([], some .typeError)
    else get_knight_moves_loop b knight rest

/-- `Chess.get_knight_moves` (chess.py:203), with the source's loop order:
`(rank_absolute, file_absolute)` outer, then `rank_direction`, then
`file_direction`. -/
def get_knight_moves (b : Board) (knight : Piece) : Gen (Int × Int) :=
  get_knight_moves_loop b knight
    [(1, 2, -1, -1), (1, 2, -1, 1), (1, 2, 1, -1), (1, 2, 1, 1),
     (2, 1, -1, -1), (2, 1, -1, 1), (2, 1, 1, -1), (2, 1, 1, 1)]

/-- `Chess.get_bishop_moves` (chess.py:225). -/
def get_bishop_moves (b : Board) (bishop : Piece) : Gen (Int × Int) :=
  genConcat ([(-1, -1), (-1, 1), (1, -1), (1, 1)].map fun d =>
    get_moves_in_direction b bishop d.1 d.2)

/-- `Chess.get_queen_moves` (chess.py:243): `file_direction` outer,
`rank_direction` inner, skipping `(0, 0)`. -/
def get_queen_moves (b : Board) (queen : Piece) : Gen (Int × Int) :=
  genConcat ([(-1, -1), (0, -1), (1, -1), (-1, 0), (1, 0),
      (-1, 1), (0, 1), (1, 1)].map fun d =>
    get_moves_in_direction b queen d.1 d.2)

/-- The one-step loop of `Chess.get_king_moves` (chess.py:286-299):
`file_direction` outer, `rank_direction` inner, skipping `(0, 0)`.  Line
293 checks `on_board(file, rank)` with the arguments swapped (harmless:
the predicate is symmetric). -/
def get_king_moves_loop (b : Board) (king : Piece) :
    List (Int × Int) → Gen (Int × Int)
  | [] => ([], none)
  | (rank_direction, file_direction) :: rest =>
    let rank := king.rank + rank_direction
    let file := king.file + file_direction
    if ¬ on_board file rank then get_king_moves_loop b king rest
    else
      let victim := get_piece b rank file
      if victim.isNone ∨ victim.any (fun v => v.side != king.side) then
        match hypothetical_check b king.side [(king, rank, file)] with
        | .error e => ([], some e)
        | .ok check =>
          let (tail, e) := get_king_moves_loop b king rest
          if check then (tail, e) else ((rank, file) :: tail, e)
      else get_king_moves_loop b king rest

/-- The castling tail of `Chess.get_king_moves` (chess.py:300-303): for an
unmoved king it *evaluates* `validate_king_move` on the two castling
files but discards the result (there is no `yield`), so only an exception
from the validator can be observed. -/
def get_king_moves_castling (b : Board) (king : Piece) : Option PyErr :=
  if king.hasMoved then none
  else
    match validate_king_move b king king.rank (king.file + -2) with
    | .error e => some e
    | .ok _ =>
      match validate_king_move b king king.rank (king.file + 2) with
      | .error e => some e
      | .ok _ => none

/-- `Chess.get_king_moves` (chess.py:284). -/
def get_king_moves (b : Board) (king : Piece) : Gen (Int × Int) :=
  let (moves, e) := get_king_moves_loop b king
    [(-1, -1), (0, -1), (1, -1), (-1, 0), (1, 0), (-1, 1), (0, 1), (1, 1)]
  match e with
  | some e => (moves, some e)
  | none => (moves, get_king_moves_castling b king)

/-- The dispatch table of `Chess.possible_moves` (chess.py:337-344). -/
def move_generator (b : Board) (piece : Piece) : Gen (Int × Int) :=
  match piece.pieceType with
  | .PAWN => get_pawn_moves b piece
  | .ROOK => get_rook_moves b piece
  | .KNIGHT => get_knight_moves b piece
  | .BISHOP => get_bishop_moves b piece
  | .QUEEN => get_queen_moves b piece
  | .KING => get_king_moves b piece

/-- The per-piece filter of `Chess.possible_moves` (chess.py:346-348):
each generated destination passes through `hypothetical_check` again. -/
def possible_moves_filter (b : Board) (side : Side) (piece : Piece) :
    List (Int × Int) → Gen (Piece × Int × Int)
  | [] => ([], none)
  | (rank, file) :: rest =>
    match hypothetical_check b side [(piece, rank, file)] with
    | .error e => ([], some e)
    | .ok check =>
      let (tail, e) := possible_moves_filter b side piece rest
      if check then (tail, e) else ((piece, rank, file) :: tail, e)

/-- The piece loop of `Chess.possible_moves` (chess.py:345-348). -/
def possible_moves_loop (b : Board) (side : Side) :
    List Piece → Gen (Piece × Int × Int)
  | [] => ([], none)
  | piece :: rest =>
    let (yields, gen_err) := move_generator b piece
    let (moves, filter_err) := possible_moves_filter b side piece yields
    match filter_err with
    | some e => (moves, some e)
    | none =>
      match gen_err with
      | some e => (moves, some e)
      | none =>
        let (tail, e) := possible_moves_loop b side rest
        (moves ++ tail, e)

/-- `Chess.possible_moves` (chess.py:330): all possible moves for a side. -/
def possible_moves (b : Board) (side : Side) : Gen (Piece × Int × Int) :=
  possible_moves_loop b side (b.filter fun p => p.side == side)

end Chess

/-- Modelled from the spec: path clearance for sliding pieces (§4.2) —
every square strictly between `(r1, f1)` and `(r2, f2)` (exclusive on both
ends) is empty.  The caller guarantees the two squares are aligned. -/
def specPathClear (b : Board) (r1 f1 r2 f2 : Int) : Bool :=
  let steps := max (r2 - r1).natAbs (f2 - f1).natAbs
  (List.range' 1 (steps - 1)).all fun i =>
    (Chess.get_piece b (r1 + i * (r2 - r1).sign) (f1 + i * (f2 - f1).sign)).isNone

/-- Modelled from the spec: the capture geometry of §4.2, i.e. whether
piece `p` attacks the square `(rank, file)` on board `b` by a
legality-only (geometry) move — a pawn attacks one square diagonally
forwards, a knight by its (1,2)/(2,1) jump, a king one square in any
direction, and the sliding pieces along their clear lines. -/
def specAttacks (b : Board) (p : Piece) (rank file : Int) : Bool :=
  let dr := rank - p.rank
  let df := file - p.file
  if dr == 0 && df == 0 then false
  else
    match p.pieceType with
    | .PAWN => dr == p.side.forwards && df.natAbs == 1
    | .KNIGHT =>
      (dr.natAbs == 1 && df.natAbs == 2) || (dr.natAbs == 2 && df.natAbs == 1)
    | .KING => dr.natAbs ≤ 1 && df.natAbs ≤ 1
    | .ROOK => (dr == 0 || df == 0) && specPathClear b p.rank p.file rank file
    | .BISHOP => dr.natAbs == df.natAbs && specPathClear b p.rank p.file rank file
    | .QUEEN =>
      (dr == 0 || df == 0 || dr.natAbs == df.natAbs) &&
        specPathClear b p.rank p.file rank file

/-- Modelled from the spec: `king_is_attacked(board, side)` (§4.3) —
locate `side`'s king and test whether some enemy piece has a geometry
move onto its square.  (The spec's invariant guarantees the king exists
in every position the predicate is used on.) -/
def king_is_attacked (b : Board) (side : Side) : Bool :=
  match b.find? (fun p => p.side == side && p.pieceType == PieceType.KING) with
  | none => false
  | some king =>
    b.any fun e => e.side == side.invert && specAttacks b e king.rank king.file

/-- Modelled from the spec: whether some piece of `bySide` attacks the
square `(rank, file)` (§4.2/§4.3). -/
def spec_square_attacked (b : Board) (bySide : Side) (rank file : Int) : Bool :=
  b.any fun e => e.side == bySide && specAttacks b e rank file

/-- Modelled from the spec: every square strictly between files `fileA`
and `fileB` on `rank` is empty (used for the castling corridor, §4.2). -/
def spec_between_empty (b : Board) (rank fileA fileB : Int) : Bool :=
  let lo := min fileA fileB
  let n := (fileA - fileB).natAbs
  (List.range' 1 (n - 1)).all fun i => (Chess.get_piece b rank (lo + i)).isNone

/-- Modelled from the spec: castling geometry (§4.2) — the king and the
relevant rook have never moved, all squares strictly between them are
empty, and the king's start, transit and destination squares are not
attacked. -/
def spec_castle_ok (b : Board) (king : Piece) (rank file : Int) : Bool :=
  let dir : Int := if file > king.file then 1 else -1
  let rookFile : Int := if file > king.file then 7 else 0
  rank == king.rank && !king.hasMoved && (file - king.file).natAbs == 2 &&
  (match Chess.get_piece b king.rank rookFile with
   | some rook =>
     rook.side == king.side && rook.pieceType == PieceType.ROOK &&
       !rook.hasMoved
   | none => false) &&
  spec_between_empty b king.rank king.file rookFile &&
  (([0, 1, 2] : List Int).all fun i =>
    !spec_square_attacked b king.side.invert king.rank (king.file + i * dir))

/-- Modelled from the spec: the board effect of applying a move (§4.1
`move_piece` plus §4.5 steps 3-4) — the moving piece is relocated,
capturing any piece on the destination; an en-passant victim (the pawn
passed over when a pawn captures diagonally onto an empty square) is
removed; on castling the rook is relocated too; `has_moved` is set on the
moved piece(s); every pawn's `just_double_stepped` flag is cleared and
then set on the moved pawn if it advanced two squares. -/
def spec_apply_move (b : Board) (p : Piece) (rank file : Int) : Board :=
  let isEp := p.pieceType == PieceType.PAWN && (file - p.file).natAbs == 1 &&
    (Chess.get_piece b rank file).isNone
  let b' := b.filter fun q =>
    !(q.rank == rank && q.file == file) && q.id != p.id &&
    !(isEp && q.rank == p.rank && q.file == file)
  let b' := b'.map fun q => {q with firstMoveLastTurn := false}
  let doubleStepped := p.pieceType == PieceType.PAWN &&
    (rank - p.rank).natAbs == 2
  let moved := {p with
    rank := rank, file := file, hasMoved := true,
    firstMoveLastTurn := doubleStepped}
  let b' := b' ++ [moved]
  if p.pieceType == PieceType.KING && (file - p.file).natAbs == 2 then
    let rookFromFile : Int := if file > p.file then 7 else 0
    let rookToFile : Int := if file > p.file then 5 else 3
    b'.map fun q =>
      if q.pieceType == PieceType.ROOK && q.side == p.side &&
          q.rank == rank && q.file == rookFromFile then
        {q with file := rookToFile, hasMoved := true}
      else q
  else b'

/-- Modelled from the spec: `is_legal_geometry(piece, dest)` (§4.2) —
shape and occupancy of a move, ignoring whether it leaves the mover's own
king in check. -/
def spec_legal_geometry (b : Board) (p : Piece) (rank file : Int) : Bool :=
  Chess.on_board rank file &&
  !(rank == p.rank && file == p.file) &&
  !((Chess.get_piece b rank file).any fun v => v.side == p.side) &&
  match p.pieceType with
  | .PAWN =>
    let rrd := p.side.forwards * (rank - p.rank)
    let afd := (file - p.file).natAbs
    (afd == 0 && rrd == 1 && (Chess.get_piece b rank file).isNone) ||
    (afd == 0 && rrd == 2 && !p.hasMoved &&
      (Chess.get_piece b (p.rank + p.side.forwards) file).isNone &&
      (Chess.get_piece b rank file).isNone) ||
    (afd == 1 && rrd == 1 &&
      ((Chess.get_piece b rank file).any fun v => v.side != p.side)) ||
    (afd == 1 && rrd == 1 && (Chess.get_piece b rank file).isNone &&
      ((Chess.get_piece b p.rank file).any fun epp =>
        epp.side != p.side && epp.pieceType == PieceType.PAWN &&
          epp.firstMoveLastTurn))
  | .KING =>
    ((rank - p.rank).natAbs ≤ 1 && (file - p.file).natAbs ≤ 1) ||
      spec_castle_ok b p rank file
  | _ => specAttacks b p rank file

/-- Modelled from the spec: `Chess.get_allowed_castling` — called by
`freeze_game` (chess.py:393) but defined nowhere under `src/`.  Spec §3:
castling rights are "computed on demand from each Rook/King's `has_moved`
flag plus current occupancy between king and rook, and whether the
relevant squares are currently/would-be attacked".  Returns the
`(rook, king_rank)` pairs still castleable (the caller uses only
`rook.id`). -/
def get_allowed_castling (b : Board) (king : Piece) : List (Piece × Int) :=
  ([2, 6] : List Int).filterMap fun destFile =>
    if spec_castle_ok b king king.rank destFile then
      match Chess.get_piece b king.rank (if destFile == 6 then 7 else 0) with
      | some rook => some (rook, king.rank)
      | none => none
    else none

/-- `models.GameState`: a snapshot of a game (models.py:425). -/
structure GameStateRec where
  turnNumber : Nat
  arrangement : String
deriving DecidableEq, Repr

/-- `models.Game`, restricted to the fields the embedded operations
touch.  Datetimes and timedeltas are integer microseconds; nullable
datetime columns are `Option Int`.  `turnNumber` is the `_turn_number`
column; `turnNumberClobbered` records whether the `turn_number` attribute
has been rebound to `None` by an executed `game.turn_number += 1`
(`TurnCounter.__iadd__` has no `return`, models.py:84-98).  `states` is
the game's `GameState` history.  Rating (elo) bookkeeping is
floating-point and outside every claim, so it is not modelled. -/
structure Game where
  pieces : Board
  currentTurn : Side
  turnNumber : Nat
  turnNumberClobbered : Bool
  fixedExtraTime : Int
  timeIncrementPerTurn : Int
  homeTime : Int
  awayTime : Int
  lastTurn : Option Int
  startedAt : Option Int
  homeOfferingDraw : Bool
  awayOfferingDraw : Bool
  winner : Winner
  conclusionType : Conclusion
  endedAt : Option Int
  otherValidDrawClaim : Option Conclusion
  states : List GameStateRec
deriving DecidableEq, Repr

namespace Timer

/-- `Timer.turn_end` (timing.py:21): charge `side`'s clock for the turn
that just ended.  `datetime.datetime.now()` is the explicit `now`
argument; `self.game.last_turn` is `NULL` before the game starts, and
subtracting `None` from a datetime raises `TypeError`. -/
def turn_end (g : Game) (side : Side) (now : Int) : Except PyErr Game :=
  match g.lastTurn with
  | none => .error .typeError
  | some last_turn =>
    let turn_length := now - last_turn
    let main_time_used :=
      if turn_length > g.fixedExtraTime then turn_length - g.fixedExtraTime
      else 0
    let timer_delta := g.timeIncrementPerTurn - main_time_used
    let g' :=
      if side == Side.HOME then {g with homeTime := g.homeTime + timer_delta}
      else {g with awayTime := g.awayTime + timer_delta}
    .ok {g' with lastTurn := some now}

end Timer

namespace Chess

/-- `peewee.Model.get` for a side's king (chess.py:114-118, 388-392):
first matching row, `DoesNotExist` if absent. -/
def pieceGetKing (b : Board) (side : Side) : Except PyErr Piece :=
  match b.find? (fun p => p.side == side && p.pieceType == PieceType.KING) with
  | some king => .ok king
  | none => .error .doesNotExist

/-- Stable insertion of `x` into a list sorted by `le`. -/
def orderedInsert (le : Piece → Piece → Bool) (x : Piece) :
    List Piece → List Piece
  | [] => [x]
  | y :: ys => if le x y then x :: y :: ys else y :: orderedInsert le x ys

/-- `order_by(Piece.rank, Piece.file)` (chess.py:382-384). -/
def sortByRankFile (b : Board) : Board :=
  b.foldr (orderedInsert fun p q =>
    p.rank < q.rank ∨ (p.rank = q.rank ∧ p.file ≤ q.file)) []

/-- `piece.piece_type.name[0]`, with the knight special-cased to `'n'`
(chess.py:396-399). -/
def typeAbbrev : PieceType → String
  | .PAWN => "P"
  | .ROOK => "R"
  | .KNIGHT => "n"
  | .BISHOP => "B"
  | .QUEEN => "Q"
  | .KING => "K"

/-- `str(models.Piece.rank)` as evaluated at chess.py:403: the *class*
attribute, a peewee field object, whose string form is its repr — a
constant that does not depend on the piece being serialized.  Only its
independence from the piece matters to any theorem below. -/
def pieceRankFieldStr : String := "<SmallIntegerField: Piece.rank>"

/-- `str(models.Piece.file)` as evaluated at chess.py:403 — likewise a
piece-independent constant. -/
def pieceFileFieldStr : String := "<SmallIntegerField: Piece.file>"

/-- One piece's contribution to the arrangement string
(chess.py:395-410).  `.upper()` is applied only for `Side.HOME`, but every
non-knight abbreviation is already upper case. -/
def freezeEntry (castleable_rooks : List Nat) (p : Piece) : String :=
  let ab := typeAbbrev p.pieceType
  let ab := if p.side == Side.HOME then ab.toUpper else ab
  let s := ab ++ pieceRankFieldStr ++ pieceFileFieldStr
  if p.pieceType == PieceType.PAWN then
    if p.firstMoveLastTurn then s ++ "X" else s
  else if p.pieceType == PieceType.ROOK then
    if castleable_rooks.contains p.id then s ++ "X" else s
  else s

/-- `Chess.freeze_game` (chess.py:378): store a snapshot of a game as a
string.  Pieces are iterated in `(rank, file)` order; the castleable-rook
ids are collected for the current side first, then the other
(chess.py:387-394). -/
def freeze_game (g : Game) : Except PyErr String := do
  let pieces := sortByRankFile g.pieces
  let king1 ← pieceGetKing g.pieces g.currentTurn
  let king2 ← pieceGetKing g.pieces g.currentTurn.invert
  let castleable_rooks :=
    (get_allowed_castling g.pieces king1 ++
      get_allowed_castling g.pieces king2).map (·.1.id)
  .ok (pieces.foldl (fun acc p => acc ++ freezeEntry castleable_rooks p) "")

end Chess

/-- `TurnCounter.__iadd__` (models.py:84-98): refuse any increment other
than one; otherwise bump `_turn_number`, charge the clock of the side
whose turn it was, flip `current_turn`, and append a `GameState` snapshot
of the new position under the new turn number. -/
def turnCounterIAdd (g : Game) (value : Int) (now : Int) :
    Except PyErr Game := do
  if value ≠ 1 then .error .valueError
  else
    let g := {g with turnNumber := g.turnNumber + 1}
    let g ← Timer.turn_end g g.currentTurn now
    let g := {g with currentTurn := g.currentTurn.invert}
    let arrangement ← Chess.freeze_game g
    .ok {g with states := g.states ++ [⟨g.turnNumber, arrangement⟩]}

/-- The full Python statement `game.turn_number += value`: augmented
assignment rebinds the attribute to whatever `__iadd__` returns, and
`TurnCounter.__iadd__` falls off its end, so a *successful* increment
replaces the `turn_number` attribute with `None`. -/
def turnNumberIAddStmt (g : Game) (value : Int) (now : Int) :
    Except PyErr Game := do
  let g' ← turnCounterIAdd g value now
  .ok {g' with turnNumberClobbered := true}

/-- `int(game.turn_number)` (events/games.py:31,117 and
`TurnCounter.__int__`): once the attribute has been rebound to `None`,
`int(None)` raises `TypeError`. -/
def intTurnNumber (g : Game) : Except PyErr Nat :=
  if g.turnNumberClobbered then .error .typeError else .ok g.turnNumber

/-- Modelled from the spec: `GameMode.make_move` — invoked as
`game.game_mode.make_move(**move_data)` (events/games.py:111) but defined
nowhere under `src/`.  Spec §4.5 steps 2-3: reject the move unless the
piece on the start square belongs to the side to move, its geometry is
legal (§4.2) and the move does not leave the mover's own king attacked
(§4.3); otherwise execute it against the board with its side effects.
Promotion is not modelled: a pawn move onto the far rank is rejected (the
spec makes it an error when no promotion piece is supplied, and no claim
exercises promotion).  Returns whether the move was accepted, with the
updated game. -/
def make_move (g : Game) (start_rank start_file end_rank end_file : Int) :
    Bool × Game :=
  match Chess.get_piece g.pieces start_rank start_file with
  | none => (false, g)
  | some p =>
    if p.side != g.currentTurn then (false, g)
    else if p.pieceType == PieceType.PAWN &&
        (end_rank == 7 || end_rank == 0) then (false, g)
    else if spec_legal_geometry g.pieces p end_rank end_file &&
        !king_is_attacked (spec_apply_move g.pieces p end_rank end_file)
          p.side then
      (true, {g with pieces := spec_apply_move g.pieces p end_rank end_file})
    else (false, g)

namespace Events

/-- The failure behaviour of `get_game_state` (events/games.py:16-32) when
its payload dict is built: `(game.last_turn or game.started_at).timestamp()`
raises `AttributeError` when both are `None`, and
`int(game.turn_number)` raises `TypeError` once the `turn_number`
attribute has been rebound to `None`.  The payload itself goes to the
socket layer, which is out of scope, so only the raises are modelled. -/
def get_game_state_effect (g : Game) : Except PyErr Unit := do
  match g.lastTurn.or g.startedAt with
  | none => .error .attributeError
  | some _ =>
    let _ ← intTurnNumber g
    .ok ()

/-- `end_game` (events/games.py:48-76): decide the winner from the
conclusion (for checkmate/time/resign the side *not* to move wins,
otherwise a draw), record the conclusion and end time and save, then build
the `game_end` payload — whose `get_game_state` call can raise *after*
the result has been persisted.  The rating update (lines 60-62) is
floating-point and outside every claim, so it is not modelled.  Returns
the saved game together with the error raised while notifying, if any. -/
def end_game (g : Game) (reason : Conclusion) (now : Int) :
    Game × Option PyErr :=
  let winner :=
    if reason == Conclusion.CHECKMATE || reason == Conclusion.TIME ||
        reason == Conclusion.RESIGN then
      if g.currentTurn == Side.HOME then Winner.AWAY else Winner.HOME
    else Winner.DRAW
  let g := {g with
    winner := winner, conclusionType := reason, endedAt := some now}
  (g, match get_game_state_effect g with
      | .error e => some e
      | .ok _ => none)

/-- The `move` event handler (events/games.py:105-135).  After a valid
move is applied, `game.turn_number += 1` leaves the `turn_number`
attribute rebound to `None`, so the `turn_number=int(game.turn_number)`
argument of `models.GameState.create` (line 117) raises `TypeError` on
every successful move; were it reached, `game.game_state` (line 118) would
raise `AttributeError` (`models.Game` has no such attribute), as would
`models.Conclusions` (line 123).  The remainder of the handler
(`game_is_over`, the draw-claim recomputation, `end_game`) is unreachable
on every path. -/
def moveHandler (g : Game) (ctxSide : Side)
    (start_rank start_file end_rank end_file : Int) (now : Int) :
    Game × Option PyErr :=
  if ctxSide != g.currentTurn then (g, some (.requestError 2312))
  else
    let (accepted, g1) := make_move g start_rank start_file end_rank end_file
    if !accepted then (g1, some (.requestError 2313))
    else
      match turnNumberIAddStmt g1 1 now with
      | .error e => (g1, some e)
      | .ok g2 =>
        let g3 := {g2 with
          homeOfferingDraw := false, awayOfferingDraw := false}
        match intTurnNumber g3 with
        | .error e => (g3, some e)
        | .ok _ => (g3, some .attributeError)

/-- The `claim_draw` event handler (events/games.py:149-165).  An
`AGREED_DRAW` claim checks the opponent's draw-offer flag; any other
reason reaches the `elif` at line 158, whose tuple literal evaluates
`models.Conclusions.FIFTY_MOVE_RULE` — `models` has no `Conclusions`
(the enum is `Conclusion`), so `AttributeError` is raised before the
claim is compared with `other_valid_draw_claim`. -/
def claimDraw (g : Game) (ctxSide : Side) (reason : Conclusion)
    (now : Int) : Game × Option PyErr :=
  if reason == Conclusion.AGREED_DRAW then
    if ctxSide == Side.HOME && !g.awayOfferingDraw then
      (g, some (.requestError 2322))
    else if ctxSide == Side.AWAY && !g.homeOfferingDraw then
      (g, some (.requestError 2322))
    else end_game g Conclusion.AGREED_DRAW now
  else (g, some .attributeError)

/-- The `resign` event handler (events/games.py:168-175): when it is not
the resigner's turn, the turn counter is incremented (comment in source:
"It is assumed that you can only lose on your turn") and the game saved;
either way the game is concluded with `Conclusion.RESIGN`. -/
def resign (g : Game) (ctxSide : Side) (now : Int) : Game × Option PyErr :=
  if g.currentTurn != ctxSide then
    match turnNumberIAddStmt g 1 now with
    | .error e => (g, some e)
    | .ok g' => end_game g' Conclusion.RESIGN now
  else end_game g Conclusion.RESIGN now

end Events

/-! ### Concrete positions and games used to settle the claims -/

/-- A home king on e1 (rank 0, file 4) that has already moved. -/
def homeKingP : Piece := ⟨1, .KING, 0, 4, .HOME, true, false⟩

/-- An away rook on f8 (rank 7, file 5). -/
def awayRookP : Piece := ⟨2, .ROOK, 7, 5, .AWAY, true, false⟩

/-- An away king on e8 (rank 7, file 4). -/
def awayKingP : Piece := ⟨3, .KING, 7, 4, .AWAY, true, false⟩

/-- A reachable K+R-vs-K position with home to move: the home king on
(0,4) is safe, but (0,5) is covered by the away rook on (7,5). -/
def pinBoard : Board := [homeKingP, awayRookP, awayKingP]

/-- A lone home rook on (0,0). -/
def loneRookP : Piece := ⟨1, .ROOK, 0, 0, .HOME, false, false⟩

/-- An unmoved home king on (0,4), for the castling fixture. -/
def cKing : Piece := ⟨1, .KING, 0, 4, .HOME, false, false⟩

/-- An unmoved home rook on (0,7), for the castling fixture. -/
def cRook : Piece := ⟨2, .ROOK, 0, 7, .HOME, false, false⟩

/-- A home pawn standing on (0,5) — a square that must be empty for
kingside castling. -/
def cPawn5 : Piece := ⟨3, .PAWN, 0, 5, .HOME, false, false⟩

/-- A home pawn standing on (0,6) — the king's castling destination. -/
def cPawn6 : Piece := ⟨4, .PAWN, 0, 6, .HOME, false, false⟩

/-- The away king for the castling fixture. -/
def cAwayKing : Piece := ⟨5, .KING, 7, 4, .AWAY, true, false⟩

/-- A position in which the kingside castling corridor (files 5 and 6 of
rank 0) is *occupied* by home pawns. -/
def castleBoard : Board := [cKing, cRook, cPawn5, cPawn6, cAwayKing]

/-- A game fixture around a given board: home to move on turn 1, clocks at
100µs with 5µs fixed extra time and a 3µs increment, last turn at t=0. -/
def fixtureGame (b : Board) : Game :=
  { pieces := b, currentTurn := .HOME, turnNumber := 1,
    turnNumberClobbered := false, fixedExtraTime := 5,
    timeIncrementPerTurn := 3, homeTime := 100, awayTime := 100,
    lastTurn := some 0, startedAt := some 0, homeOfferingDraw := false,
    awayOfferingDraw := false, winner := .GAME_NOT_COMPLETE,
    conclusionType := .GAME_NOT_COMPLETE, endedAt := none,
    otherValidDrawClaim := none, states := [] }

/-- The K+R-vs-K fixture as a running game. -/
def pinGame : Game := fixtureGame pinBoard

/-- A home rook on (0,0) that has moved, for the `freeze_game` fixture. -/
def fRookA : Piece := ⟨1, .ROOK, 0, 0, .HOME, true, false⟩

/-- The same rook placed on (0,1) instead. -/
def fRookB : Piece := ⟨1, .ROOK, 0, 1, .HOME, true, false⟩

/-- The home king of the `freeze_game` fixture. -/
def fHomeKing : Piece := ⟨2, .KING, 0, 4, .HOME, true, false⟩

/-- The away king of the `freeze_game` fixture. -/
def fAwayKing : Piece := ⟨3, .KING, 7, 4, .AWAY, true, false⟩

/-- Game A of the `freeze_game` fixture: home rook on (0,0). -/
def freezeGameA : Game := fixtureGame [fRookA, fHomeKing, fAwayKing]

/-- Game B of the `freeze_game` fixture: identical except the home rook
stands on (0,1). -/
def freezeGameB : Game := fixtureGame [fRookB, fHomeKing, fAwayKing]

/-- The K+R-vs-K game with an outstanding threefold-repetition claim
right recorded in `other_valid_draw_claim`. -/
def drawClaimGame : Game :=
  {pinGame with otherValidDrawClaim := some .THREEFOLD_REPETITION}

/-! ### Claims C1-C7 -/

/-- C1: refuted on the code.  The claim says every move yielded by
`Chess.possible_moves(side)` leaves that side's own king unattacked once
applied.  In the K+R-vs-K position, `possible_moves` yields the king move
(0,4) → (0,5) — a square covered by the away rook — because
`hypothetical_check` never observes its hypothetical moves (the `FIXME`
at chess.py:113) and therefore only tests the *current* position, where
the king is safe.  Applying the yielded move leaves the mover's king
attacked. -/
theorem c1_possible_moves_yields_move_into_check :
    (homeKingP, (0 : Int), (5 : Int)) ∈ (Chess.possible_moves pinBoard Side.HOME).1 ∧
    (Chess.possible_moves pinBoard Side.HOME).2 = none ∧
    king_is_attacked (spec_apply_move pinBoard homeKingP 0 5) Side.HOME = true := by
  refine ⟨?_, rfl, rfl⟩
  decide

/-- C2: refuted on the code.  The claim says `hypothetical_check(s, *ms)`
returns true iff `s`'s king is attacked in the position obtained by
applying `ms`.  For the candidate move (king, 0, 5) in the K+R-vs-K
position the oracle answers `false`, yet the king *is* attacked in the
position the move produces: the moves argument is stored in
`self.hypothetical_moves` and never observed by `get_piece`, so the
simulation never happens. -/
theorem c2_hypothetical_check_ignores_its_moves :
    Chess.hypothetical_check pinBoard Side.HOME [(homeKingP, 0, 5)] =
      .ok false ∧
    king_is_attacked (spec_apply_move pinBoard homeKingP 0 5) Side.HOME = true := by
  exact ⟨rfl, rfl⟩

/-- C3: refuted on the code.  The claim says `freeze_game` separates any
two positions that differ in piece placement.  Chess.py:403 concatenates
`str(models.Piece.rank)` and `str(models.Piece.file)` — the peewee *class
fields*, two piece-independent constants — instead of the piece's own
coordinates, so two games whose only difference is the home rook's file
((0,0) versus (0,1)) freeze to the identical string. -/
theorem c3_freeze_game_blind_to_placement :
    Chess.freeze_game freezeGameA = Chess.freeze_game freezeGameB ∧
    freezeGameA.pieces ≠ freezeGameB.pieces := by
  refine ⟨rfl, ?_⟩
  decide

/-- C4: refuted on the code.  The claim says `path_is_empty` returns true,
returning normally, when all strictly-intermediate squares are empty and
the destination is empty or enemy-occupied.  For a rook on (0,0) moving to
the empty square (0,3) over an empty path, line 77 (`victim.side`)
dereferences `None` and raises `AttributeError` instead. -/
theorem c4_path_is_empty_raises_on_empty_destination :
    Chess.path_is_empty [loneRookP] loneRookP 0 3 = .error .attributeError := by
  exact rfl

/-- C5: refuted on the code.  The claim says a castling move is accepted
only if every square strictly between king and rook is empty (among other
conditions).  The emptiness scan at chess.py:273-275 is inverted — it
*rejects* castling when one of those squares is empty — so the kingside
castle (0,4) → (0,6) is accepted in a position where (0,5) and (0,6) are
both occupied by home pawns. -/
theorem c5_castling_accepted_with_occupied_corridor :
    Chess.validate_king_move castleBoard cKing 0 6 = .ok true ∧
    (Chess.get_piece castleBoard 0 5).isSome = true ∧
    (Chess.get_piece castleBoard 0 6).isSome = true := by
  exact ⟨rfl, rfl, rfl⟩

/-- C6: refuted on the code.  The claim says that after every applied
move the outstanding draw-claim right is recomputed
(threefold / fifty-move / none).  In fact the `move` handler raises
`TypeError` on *every* successfully applied move — `game.turn_number += 1`
rebinds `turn_number` to `None` (`TurnCounter.__iadd__` returns nothing),
so `int(game.turn_number)` at events/games.py:117 fails —
and `other_valid_draw_claim` is never recomputed (the code that would do
so also names the nonexistent `models.Conclusions`). -/
theorem c6_move_handler_raises_before_draw_claim_update :
    (make_move pinGame 0 4 1 4).1 = true ∧
    (Events.moveHandler pinGame Side.HOME 0 4 1 4 1000).2 =
      some .typeError ∧
    (Events.moveHandler pinGame Side.HOME 0 4 1 4 1000).1.otherValidDrawClaim
      = none := by
  exact ⟨rfl, rfl, rfl⟩

/-- C7: refuted on the code.  The claim says `claim_draw(reason)`
concludes the game when `reason` equals the outstanding draw-claim right.
Claiming `THREEFOLD_REPETITION` while exactly that right is outstanding
instead raises `AttributeError` — the `elif`'s tuple literal evaluates
`models.Conclusions.FIFTY_MOVE_RULE` (events/games.py:160) and `models`
has no attribute `Conclusions` — and the game is not concluded. -/
theorem c7_claim_draw_raises_on_valid_threefold_claim :
    (Events.claimDraw drawClaimGame Side.HOME
      Conclusion.THREEFOLD_REPETITION 1000).2 = some .attributeError ∧
    (Events.claimDraw drawClaimGame Side.HOME
      Conclusion.THREEFOLD_REPETITION 1000).1 = drawClaimGame := by
  exact ⟨rfl, rfl⟩

/-! ### Helper lemmas for the turn counter, timer and resign claims -/

/-- A side's king is present on the board (spec §3 invariant: exactly one
king per side while the game is ongoing). -/
abbrev hasKing (b : Board) (side : Side) : Prop :=
  (b.find? fun p => p.side == side && p.pieceType == PieceType.KING).isSome
    = true

lemma side_eq_invert_of_ne {a b : Side} (h : a ≠ b) : a = b.invert := by
  cases a <;> cases b <;> simp_all [Side.invert]

lemma pieceGetKing_ok (b : Board) (side : Side) (h : hasKing b side) :
    ∃ k, Chess.pieceGetKing b side = .ok k := by
  unfold hasKing at h
  cases hf : b.find? fun p => p.side == side && p.pieceType == PieceType.KING
  case none => rw [hf] at h; simp at h
  case some k =>
    refine ⟨k, ?_⟩
    unfold Chess.pieceGetKing
    rw [hf]

lemma freeze_game_ok (g : Game) (hH : hasKing g.pieces Side.HOME)
    (hA : hasKing g.pieces Side.AWAY) :
    ∃ arr, Chess.freeze_game g = .ok arr := by
  have h1 : hasKing g.pieces g.currentTurn := by
    cases hgc : g.currentTurn
    · exact hH
    · exact hA
  have h2 : hasKing g.pieces g.currentTurn.invert := by
    cases hgc : g.currentTurn
    · exact hA
    · exact hH
  obtain ⟨k1, hk1⟩ := pieceGetKing_ok g.pieces g.currentTurn h1
  obtain ⟨k2, hk2⟩ := pieceGetKing_ok g.pieces g.currentTurn.invert h2
  refine ⟨(Chess.sortByRankFile g.pieces).foldl
    (fun acc p => acc ++ Chess.freezeEntry
      ((get_allowed_castling g.pieces k1 ++
        get_allowed_castling g.pieces k2).map (·.1.id)) p) "", ?_⟩
  unfold Chess.freeze_game
  rw [hk1, hk2]
  rfl

lemma end_game_fst (g : Game) (reason : Conclusion) (now : Int) :
    (Events.end_game g reason now).1 =
      {g with
        winner :=
          if reason == Conclusion.CHECKMATE || reason == Conclusion.TIME ||
              reason == Conclusion.RESIGN then
            if g.currentTurn == Side.HOME then Winner.AWAY else Winner.HOME
          else Winner.DRAW,
        conclusionType := reason, endedAt := some now} := rfl

lemma turnNumberIAddStmt_spec (g : Game) (now lt : Int)
    (hH : hasKing g.pieces Side.HOME) (hA : hasKing g.pieces Side.AWAY)
    (hl : g.lastTurn = some lt) :
    ∃ g' arr, turnNumberIAddStmt g 1 now = .ok g' ∧
      g'.turnNumber = g.turnNumber + 1 ∧
      g'.currentTurn = g.currentTurn.invert ∧
      g'.pieces = g.pieces ∧
      g'.turnNumberClobbered = true ∧
      (g.currentTurn = Side.HOME →
        g'.homeTime = g.homeTime + g.timeIncrementPerTurn -
          (if now - lt > g.fixedExtraTime then now - lt - g.fixedExtraTime
           else 0) ∧
        g'.awayTime = g.awayTime) ∧
      (g.currentTurn = Side.AWAY →
        g'.awayTime = g.awayTime + g.timeIncrementPerTurn -
          (if now - lt > g.fixedExtraTime then now - lt - g.fixedExtraTime
           else 0) ∧
        g'.homeTime = g.homeTime) ∧
      g'.states = g.states ++ [⟨g.turnNumber + 1, arr⟩] := by
  obtain ⟨pieces, currentTurn, turnNumber, clob, fet, inc, homeTime, awayTime,
    lastTurn, startedAt, hod, aod, winner, concl, endedAt, ovdc, states⟩ := g
  have hl' : lastTurn = some lt := hl
  subst hl'
  cases currentTurn
  case HOME =>
    obtain ⟨arr, harr⟩ := freeze_game_ok
      (⟨pieces, Side.AWAY, turnNumber + 1, clob, fet, inc,
        homeTime + (inc - if now - lt > fet then now - lt - fet else 0),
        awayTime, some now, startedAt, hod, aod, winner, concl, endedAt,
        ovdc, states⟩ : Game) hH hA
    have key : turnNumberIAddStmt
        ⟨pieces, Side.HOME, turnNumber, clob, fet, inc, homeTime, awayTime,
          some lt, startedAt, hod, aod, winner, concl, endedAt, ovdc,
          states⟩ 1 now =
        Except.bind
          (Except.bind
            (Chess.freeze_game
              ⟨pieces, Side.AWAY, turnNumber + 1, clob, fet, inc,
                homeTime +
                  (inc - if now - lt > fet then now - lt - fet else 0),
                awayTime, some now, startedAt, hod, aod, winner, concl,
                endedAt, ovdc, states⟩)
            (fun arrangement => Except.ok
              ⟨pieces, Side.AWAY, turnNumber + 1, clob, fet, inc,
                homeTime +
                  (inc - if now - lt > fet then now - lt - fet else 0),
                awayTime, some now, startedAt, hod, aod, winner, concl,
                endedAt, ovdc, states ++ [⟨turnNumber + 1, arrangement⟩]⟩))
          (fun g' : Game => Except.ok {g' with turnNumberClobbered := true}) :=
      rfl
    refine ⟨⟨pieces, Side.AWAY, turnNumber + 1, true, fet, inc,
        homeTime + (inc - if now - lt > fet then now - lt - fet else 0),
        awayTime, some now, startedAt, hod, aod, winner, concl, endedAt,
        ovdc, states ++ [⟨turnNumber + 1, arr⟩]⟩, arr,
      ?_, rfl, rfl, rfl, rfl, ?_, ?_, rfl⟩
    · rw [key, harr]
      rfl
    · intro _
      refine ⟨?_, rfl⟩
      show homeTime + (inc - if now - lt > fet then now - lt - fet else 0) =
        homeTime + inc - if now - lt > fet then now - lt - fet else 0
      split <;> omega
    · intro hcon
      exact Side.noConfusion hcon
  case AWAY =>
    obtain ⟨arr, harr⟩ := freeze_game_ok
      (⟨pieces, Side.HOME, turnNumber + 1, clob, fet, inc, homeTime,
        awayTime + (inc - if now - lt > fet then now - lt - fet else 0),
        some now, startedAt, hod, aod, winner, concl, endedAt,
        ovdc, states⟩ : Game) hH hA
    have key : turnNumberIAddStmt
        ⟨pieces, Side.AWAY, turnNumber, clob, fet, inc, homeTime, awayTime,
          some lt, startedAt, hod, aod, winner, concl, endedAt, ovdc,
          states⟩ 1 now =
        Except.bind
          (Except.bind
            (Chess.freeze_game
              ⟨pieces, Side.HOME, turnNumber + 1, clob, fet, inc, homeTime,
                awayTime +
                  (inc - if now - lt > fet then now - lt - fet else 0),
                some now, startedAt, hod, aod, winner, concl,
                endedAt, ovdc, states⟩)
            (fun arrangement => Except.ok
              ⟨pieces, Side.HOME, turnNumber + 1, clob, fet, inc, homeTime,
                awayTime +
                  (inc - if now - lt > fet then now - lt - fet else 0),
                some now, startedAt, hod, aod, winner, concl,
                endedAt, ovdc, states ++ [⟨turnNumber + 1, arrangement⟩]⟩))
          (fun g' : Game => Except.ok {g' with turnNumberClobbered := true}) :=
      rfl
    refine ⟨⟨pieces, Side.HOME, turnNumber + 1, true, fet, inc, homeTime,
        awayTime + (inc - if now - lt > fet then now - lt - fet else 0),
        some now, startedAt, hod, aod, winner, concl, endedAt,
        ovdc, states ++ [⟨turnNumber + 1, arr⟩]⟩, arr,
      ?_, rfl, rfl, rfl, rfl, ?_, ?_, rfl⟩
    · rw [key, harr]
      rfl
    · intro hcon
      exact Side.noConfusion hcon
    · intro _
      refine ⟨?_, rfl⟩
      show awayTime + (inc - if now - lt > fet then now - lt - fet else 0) =
        awayTime + inc - if now - lt > fet then now - lt - fet else 0
      split <;> omega

/-! ### Claims C8-C10 -/

/-- C8: confirmed.  `Timer.turn_end(side)` adds the per-turn increment to
`side`'s clock, subtracts the elapsed time beyond `fixed_extra_time` when
the turn ran longer than that allowance, and leaves the opposing side's
clock untouched. -/
theorem c8_turn_end_updates_only_given_side (g : Game) (side : Side)
    (now lt : Int) (h : g.lastTurn = some lt) :
    ∃ g', Timer.turn_end g side now = .ok g' ∧
      (side = Side.HOME →
        g'.homeTime = g.homeTime + g.timeIncrementPerTurn -
          (if now - lt > g.fixedExtraTime then now - lt - g.fixedExtraTime
           else 0) ∧
        g'.awayTime = g.awayTime) ∧
      (side = Side.AWAY →
        g'.awayTime = g.awayTime + g.timeIncrementPerTurn -
          (if now - lt > g.fixedExtraTime then now - lt - g.fixedExtraTime
           else 0) ∧
        g'.homeTime = g.homeTime) := by
  cases side
  case HOME =>
    refine ⟨{g with
        homeTime := g.homeTime + (g.timeIncrementPerTurn -
          if now - lt > g.fixedExtraTime then now - lt - g.fixedExtraTime
          else 0),
        lastTurn := some now}, ?_, ?_, ?_⟩
    · unfold Timer.turn_end
      rw [h]
      rfl
    · intro _
      constructor
      · show g.homeTime + (g.timeIncrementPerTurn - _) = _
        split <;> omega
      · rfl
    · intro hcon; cases hcon
  case AWAY =>
    refine ⟨{g with
        awayTime := g.awayTime + (g.timeIncrementPerTurn -
          if now - lt > g.fixedExtraTime then now - lt - g.fixedExtraTime
          else 0),
        lastTurn := some now}, ?_, ?_, ?_⟩
    · unfold Timer.turn_end
      rw [h]
      rfl
    · intro hcon; cases hcon
    · intro _
      constructor
      · show g.awayTime + (g.timeIncrementPerTurn - _) = _
        split <;> omega
      · rfl

/-- Witness for C8 at the K+R-vs-K fixture: home's clock is charged for a
995µs overrun and credited the 3µs increment; away's clock is untouched. -/
theorem c8_turn_end_updates_only_given_side_witness :
    ∃ g', Timer.turn_end pinGame Side.HOME 1000 = .ok g' ∧
      (Side.HOME = Side.HOME →
        g'.homeTime = pinGame.homeTime + pinGame.timeIncrementPerTurn -
          (if 1000 - 0 > pinGame.fixedExtraTime
           then 1000 - 0 - pinGame.fixedExtraTime else 0) ∧
        g'.awayTime = pinGame.awayTime) ∧
      (Side.HOME = Side.AWAY →
        g'.awayTime = pinGame.awayTime + pinGame.timeIncrementPerTurn -
          (if 1000 - 0 > pinGame.fixedExtraTime
           then 1000 - 0 - pinGame.fixedExtraTime else 0) ∧
        g'.homeTime = pinGame.homeTime) :=
  c8_turn_end_updates_only_given_side pinGame Side.HOME 1000 0 rfl

/-- C9: confirmed.  `resign` concludes the game with the side opposite
the resigner winning, and increments the turn counter exactly when it is
not currently the resigner's turn (the asymmetry the source comments "It
is assumed that you can only lose on your turn").  The winner comes out
right in both branches because the increment also flips `current_turn`
before `end_game` reads it. -/
theorem c9_resign_concludes_with_opponent_winning (g : Game) (s : Side)
    (now lt : Int) (hH : hasKing g.pieces Side.HOME)
    (hA : hasKing g.pieces Side.AWAY) (hl : g.lastTurn = some lt) :
    (Events.resign g s now).1.winner =
      (if s = Side.HOME then Winner.AWAY else Winner.HOME) ∧
    (Events.resign g s now).1.conclusionType = Conclusion.RESIGN ∧
    (Events.resign g s now).1.turnNumber =
      g.turnNumber + (if g.currentTurn ≠ s then 1 else 0) := by
  by_cases hcs : g.currentTurn = s
  · have hres : Events.resign g s now = Events.end_game g Conclusion.RESIGN now := by
      unfold Events.resign
      rw [show (g.currentTurn != s) = false by simp [hcs]]
      rfl
    rw [hres, end_game_fst]
    refine ⟨?_, rfl, ?_⟩
    · show (if (Conclusion.RESIGN == Conclusion.CHECKMATE ||
            Conclusion.RESIGN == Conclusion.TIME ||
            Conclusion.RESIGN == Conclusion.RESIGN) = true then
          if (g.currentTurn == Side.HOME) = true then Winner.AWAY
          else Winner.HOME
        else Winner.DRAW) = _
      rw [hcs]
      cases s <;> rfl
    · show g.turnNumber = _
      simp [hcs]
  · have hcur : g.currentTurn = s.invert := side_eq_invert_of_ne hcs
    obtain ⟨g', arr, hstmt, ht, hct, _, _, _, _, _⟩ :=
      turnNumberIAddStmt_spec g now lt hH hA hl
    have hres : Events.resign g s now =
        Events.end_game g' Conclusion.RESIGN now := by
      unfold Events.resign
      rw [show (g.currentTurn != s) = true by simp [hcs], hstmt]
      rfl
    rw [hres, end_game_fst]
    refine ⟨?_, rfl, ?_⟩
    · show (if (Conclusion.RESIGN == Conclusion.CHECKMATE ||
            Conclusion.RESIGN == Conclusion.TIME ||
            Conclusion.RESIGN == Conclusion.RESIGN) = true then
          if (g'.currentTurn == Side.HOME) = true then Winner.AWAY
          else Winner.HOME
        else Winner.DRAW) = _
      rw [hct, hcur]
      cases s <;> rfl
    · show g'.turnNumber = _
      rw [ht]
      simp [hcs]

/-- Witness for C9: away resigns the K+R-vs-K game while it is home's
turn — home wins, the conclusion is RESIGN, and the turn counter is
incremented. -/
theorem c9_resign_concludes_with_opponent_winning_witness :
    (Events.resign pinGame Side.AWAY 1000).1.winner =
      (if Side.AWAY = Side.HOME then Winner.AWAY else Winner.HOME) ∧
    (Events.resign pinGame Side.AWAY 1000).1.conclusionType =
      Conclusion.RESIGN ∧
    (Events.resign pinGame Side.AWAY 1000).1.turnNumber =
      pinGame.turnNumber +
        (if pinGame.currentTurn ≠ Side.AWAY then 1 else 0) :=
  c9_resign_concludes_with_opponent_winning pinGame Side.AWAY 1000 0
    (by decide) (by decide) rfl

/-- C10: confirmed.  A `game.turn_number += 1` bumps the turn number by
exactly one, flips `current_turn`, charges exactly the side that just
moved (the pre-flip `current_turn`) once, and appends exactly one new
`GameState` snapshot carrying the new turn number; any other increment
raises `ValueError` without touching the game. -/
theorem c10_turn_counter_increment_effects (g : Game) (v : Int)
    (now lt : Int) (hH : hasKing g.pieces Side.HOME)
    (hA : hasKing g.pieces Side.AWAY) (hl : g.lastTurn = some lt) :
    (v = 1 → ∃ g' arr, turnNumberIAddStmt g v now = .ok g' ∧
      g'.turnNumber = g.turnNumber + 1 ∧
      g'.currentTurn = g.currentTurn.invert ∧
      (g.currentTurn = Side.HOME →
        g'.homeTime = g.homeTime + g.timeIncrementPerTurn -
          (if now - lt > g.fixedExtraTime then now - lt - g.fixedExtraTime
           else 0) ∧
        g'.awayTime = g.awayTime) ∧
      (g.currentTurn = Side.AWAY →
        g'.awayTime = g.awayTime + g.timeIncrementPerTurn -
          (if now - lt > g.fixedExtraTime then now - lt - g.fixedExtraTime
           else 0) ∧
        g'.homeTime = g.homeTime) ∧
      g'.states = g.states ++ [⟨g.turnNumber + 1, arr⟩]) ∧
    (v ≠ 1 → turnNumberIAddStmt g v now = .error .valueError) := by
  constructor
  · intro hv
    subst hv
    obtain ⟨g', arr, hstmt, ht, hct, _, _, hHome, hAway, hst⟩ :=
      turnNumberIAddStmt_spec g now lt hH hA hl
    exact ⟨g', arr, hstmt, ht, hct, hHome, hAway, hst⟩
  · intro hv
    have herr : turnCounterIAdd g v now = .error .valueError := by
      unfold turnCounterIAdd
      simp [hv]
    unfold turnNumberIAddStmt
    rw [herr]
    rfl

/-- Witness for C10 at the K+R-vs-K fixture with `v = 1`. -/
theorem c10_turn_counter_increment_effects_witness :
    ((1 : Int) = 1 → ∃ g' arr, turnNumberIAddStmt pinGame 1 1000 = .ok g' ∧
      g'.turnNumber = pinGame.turnNumber + 1 ∧
      g'.currentTurn = pinGame.currentTurn.invert ∧
      (pinGame.currentTurn = Side.HOME →
        g'.homeTime = pinGame.homeTime + pinGame.timeIncrementPerTurn -
          (if 1000 - 0 > pinGame.fixedExtraTime
           then 1000 - 0 - pinGame.fixedExtraTime else 0) ∧
        g'.awayTime = pinGame.awayTime) ∧
      (pinGame.currentTurn = Side.AWAY →
        g'.awayTime = pinGame.awayTime + pinGame.timeIncrementPerTurn -
          (if 1000 - 0 > pinGame.fixedExtraTime
           then 1000 - 0 - pinGame.fixedExtraTime else 0) ∧
        g'.homeTime = pinGame.homeTime) ∧
      g'.states = pinGame.states ++ [⟨pinGame.turnNumber + 1, arr⟩]) ∧
    ((1 : Int) ≠ 1 → turnNumberIAddStmt pinGame 1 1000 = .error .valueError) :=
  c10_turn_counter_increment_effects pinGame 1 1000 0 (by decide) (by decide)
    rfl

end Kasupel
